import Mathlib

/-!
# Shallow embedding of the `gbfs_rs` crate (GBFS archive parsing)

This file embeds the core of the repository in Lean:

* `src/header.rs` — `GBFSHeader::from_slice` (magic / reserved-byte validation,
  little-endian field decoding);
* `src/lib.rs`   — `GBFSFilesystem::from_slice`, `GBFSFileEntry::name_is_equal`,
  `get_file_data_by_index`, `get_file_data_by_name`,
  `get_file_data_by_name_as_u16_slice` / `..._as_u32_slice`,
  and the iterator's `next`;
* `src/file.rs`  — `Filename::as_string`, `File::to_u16_vec`, `File::to_u32_vec`;
* `src/error.rs` and the error enum embedded in `src/lib.rs` — the repository
  contains two historical revisions of the error type; our `GBFSError` is the
  union of their variants so that each embedded function can return the variant
  the corresponding source file names.

Modelling conventions:

* Rust byte slices (`&[u8]`) are `List Nat` (each element is meant to be `< 256`;
  the decoders are polynomial in the bytes, exactly as `u8` arithmetic is on
  values `< 256`).
* Machine integers (`u16`/`u32`) are `Nat`; little-endian decoding of bytes
  `< 256` never overflows, so no modulus is required.
* A Rust panic (out-of-bounds slice or array index, `unwrap`/`expect` on a
  failed value, explicit `panic!`) is `Option.none` at the outermost level; a
  fallible Rust `Result` is `Except GBFSError`.  Functions that can both panic
  and return a `Result` have type `Option (Except GBFSError _)`.
-/

deriving instance DecidableEq for Except

/-- `FILENAME_LEN` from `src/lib.rs`: maximum filename length in bytes. -/
def FILENAME_LEN : Nat := 24

/-- `DIR_ENTRY_LEN` from `src/lib.rs`: size of one directory record. -/
def DIR_ENTRY_LEN : Nat := 32

/-- `NUM_FS_ENTRIES` from `src/lib.rs`: fixed capacity of the directory array. -/
def NUM_FS_ENTRIES : Nat := 2048

/-- `GBFS_HEADER_LENGTH` from `src/header.rs`. -/
def GBFS_HEADER_LENGTH : Nat := 32

/-- `MAGIC` from `src/header.rs`: the bytes of `"PinEightGBFS\r\n\x1a\n"`. -/
def MAGIC : List Nat := [80, 105, 110, 69, 105, 103, 104, 116, 71, 66, 70, 83, 13, 10, 26, 10]

/-- Union of the two revisions of the crate's error enum
(`src/lib.rs` lines 28–38 and `src/error.rs` lines 5–21).
Payloads carried by the Rust variants that matter to the claims are kept;
`InvalidFilenameError`'s payload (an `arraystring::Error`) is dropped, since no
claim distinguishes its contents.  Filenames are represented by their UTF-8
bytes (`List Nat`). -/
inductive GBFSError where
  | InvalidFilenameError : GBFSError
  | FileLengthNotMultipleOf (multiple length : Nat) : GBFSError
  | NoSuchFile (name : List Nat) : GBFSError
  | WrongMagic : GBFSError
  | HeaderInvalid : GBFSError
  | FilenameTooLong (expected actual : Nat) : GBFSError
  | Utf8Error (validUpTo : Nat) : GBFSError
  | Cast : GBFSError
  | Truncated : GBFSError
  | TooManyEntries (expected actual : Nat) : GBFSError
deriving DecidableEq, Repr

/-- `u16::from_le_bytes([b0, b1])` on bytes `< 256`. -/
def u16_from_le_bytes (b0 b1 : Nat) : Nat := b0 + 256 * b1

/-- `u32::from_le_bytes([b0, b1, b2, b3])` on bytes `< 256`. -/
def u32_from_le_bytes (b0 b1 b2 b3 : Nat) : Nat :=
  b0 + 256 * b1 + 65536 * b2 + 16777216 * b3

/-- `u16::from_be_bytes([b0, b1])` on bytes `< 256` (used by `File::to_u16_vec`). -/
def u16_from_be_bytes (b0 b1 : Nat) : Nat := 256 * b0 + b1

/-- `u32::from_be_bytes([b0, b1, b2, b3])` on bytes `< 256` (used by `File::to_u32_vec`). -/
def u32_from_be_bytes (b0 b1 b2 b3 : Nat) : Nat :=
  16777216 * b0 + 65536 * b1 + 256 * b2 + b3

/-- `GBFSHeader` from `src/header.rs`. -/
structure GBFSHeader where
  total_len : Nat
  dir_off : Nat
  dir_num_members : Nat
deriving DecidableEq, Repr

/-- `GBFSHeader::from_slice` from `src/header.rs` (lines 14–51).
The source takes a `&[u8; 32]`; we take a `List Nat` whose first 32 elements
are those bytes (`getD _ 0` mirrors the in-bounds array indexing; all indices
used are `< 32`).  The source checks the magic bytes `0..16` one at a time,
decodes the three little-endian fields, then checks the reserved bytes
`24..32`; a mismatch in either loop returns `GBFSError::HeaderInvalid`. -/
def GBFSHeader.fromSlice (data : List Nat) : Except GBFSError GBFSHeader :=
  if (List.range 16).any (fun i => data.getD i 0 != MAGIC.getD i 0) then
    .error .HeaderInvalid
  else
    let total_len := u32_from_le_bytes (data.getD 16 0) (data.getD 17 0)
      (data.getD 18 0) (data.getD 19 0)
    let dir_off := u16_from_le_bytes (data.getD 20 0) (data.getD 21 0)
    let dir_num_members := u16_from_le_bytes (data.getD 22 0) (data.getD 23 0)
    if (List.range 8).any (fun i => data.getD (24 + i) 0 != 0) then
      .error .HeaderInvalid
    else
      .ok { total_len := total_len, dir_off := dir_off, dir_num_members := dir_num_members }

/-- Is `b` a UTF-8 continuation byte (`0x80..=0xBF`)? -/
def contByte (b : Nat) : Bool := decide (0x80 ≤ b ∧ b ≤ 0xBF)

/-- UTF-8 validity of a byte sequence, as checked by Rust's
`core::str::from_utf8` (which `arraystring`'s `try_from_utf8` calls):
1-byte `00..7F`; 2-byte lead `C2..DF`; 3-byte leads `E0` (second byte
`A0..BF`), `ED` (second byte `80..9F`), otherwise `E1..EF` (second byte
`80..BF`); 4-byte leads `F0` (second byte `90..BF`), `F4` (second byte
`80..8F`), otherwise `F1..F3` (second byte `80..BF`); all later bytes of a
sequence `80..BF`; anything else invalid. -/
def validUtf8 : List Nat → Bool
  | [] => true
  | b :: rest =>
    if b < 0x80 then validUtf8 rest
    else if b < 0xC2 then false
    else if b < 0xE0 then
      match rest with
      | b1 :: r => contByte b1 && validUtf8 r
      | [] => false
    else if b < 0xF0 then
      match rest with
      | b1 :: b2 :: r =>
        (if b = 0xE0 then decide (0xA0 ≤ b1 ∧ b1 ≤ 0xBF)
         else if b = 0xED then decide (0x80 ≤ b1 ∧ b1 ≤ 0x9F)
         else contByte b1) && contByte b2 && validUtf8 r
      | _ => false
    else if b < 0xF5 then
      match rest with
      | b1 :: b2 :: b3 :: r =>
        (if b = 0xF0 then decide (0x90 ≤ b1 ∧ b1 ≤ 0xBF)
         else if b = 0xF4 then decide (0x80 ≤ b1 ∧ b1 ≤ 0x8F)
         else contByte b1) && contByte b2 && contByte b3 && validUtf8 r
      | _ => false
    else false

/-- The null-stripping performed by `GBFSFileEntry::name_is_equal`
(`src/lib.rs` lines 74–75) and `Filename::as_string` (`src/file.rs` lines
19–24): `self.name.iter().filter(|x| **x != 0)` removes every NUL byte,
interior ones included. -/
def stripNulls (raw : List Nat) : List Nat := raw.filter (fun x => x != 0)

/-- `GBFSFileEntry` from `src/lib.rs` (lines 55–66): 24 raw name bytes, file
length, and data offset. -/
structure GBFSFileEntry where
  name : List Nat
  len : Nat
  data_offset : Nat
deriving DecidableEq, Repr

/-- `GBFSFileEntry::name_is_equal` from `src/lib.rs` (lines 70–80): strip all
NUL bytes from the stored name, decode as UTF-8 (`Filename::try_from_utf8`;
on invalid UTF-8 return `InvalidFilenameError`), and compare with the query.
`ArrayString` equality is equality of the underlying byte strings.  The
stripped name has at most 24 bytes, so `try_from_utf8`'s capacity check never
fires. -/
def GBFSFileEntry.nameIsEqual (e : GBFSFileEntry) (name : List Nat) :
    Except GBFSError Bool :=
  let noNulls := stripNulls e.name
  if validUtf8 noNulls then .ok (decide (name = noNulls))
  else .error .InvalidFilenameError

/-- `GBFSFilesystem` from `src/lib.rs` (lines 84–92).  The source stores the
directory as `[Option<GBFSFileEntry>; NUM_FS_ENTRIES]`; the construction loop
fills slots `0..entry_count` contiguously and leaves the rest `None`, so we
represent the array by its filled prefix `dir : List GBFSFileEntry`
(an absent slot — `None` in the source — is an out-of-range index here). -/
structure GBFSFilesystem where
  data : List Nat
  hdr : GBFSHeader
  dir : List GBFSFileEntry
deriving DecidableEq, Repr

/-- Reads `n` consecutive bytes `data[start], data[start+1], …` by indexing, as
the source's unrolled `data[entry_start + k]` expressions do; any index past
the end of the slice is a Rust panic (`none`). -/
def readBytes (data : List Nat) : Nat → Nat → Option (List Nat)
  | _, 0 => some []
  | start, n + 1 => do
    let b ← data.get? start
    let rest ← readBytes data (start + 1) n
    some (b :: rest)

/-- The directory-reading loop of `GBFSFilesystem::from_slice` (`src/lib.rs`
lines 118–174): `while i < hdr.dir_num_members`, read the 24 name bytes, the
4 little-endian length bytes and the 4 little-endian offset bytes of record
`i` starting at `hdr.dir_off + i * DIR_ENTRY_LEN` (each read indexes `data`
and panics when out of bounds), then store the entry with
`dir_entries[i] = Some(…)` — an array write that panics when
`i ≥ NUM_FS_ENTRIES`.  `remaining` counts the iterations left
(`hdr.dir_num_members - i`), making the recursion structural. -/
def dirLoop (data : List Nat) (dir_off : Nat) : Nat → Nat → Option (List GBFSFileEntry)
  | _, 0 => some []
  | i, remaining + 1 =>
    match readBytes data (dir_off + i * DIR_ENTRY_LEN) FILENAME_LEN with
    | none => none
    | some filename =>
      match readBytes data (dir_off + i * DIR_ENTRY_LEN + FILENAME_LEN) 4 with
      | none => none
      | some lenBytes =>
        match readBytes data (dir_off + i * DIR_ENTRY_LEN + FILENAME_LEN + 4) 4 with
        | none => none
        | some offBytes =>
          if NUM_FS_ENTRIES ≤ i then none
          else
            match dirLoop data dir_off (i + 1) remaining with
            | none => none
            | some rest =>
              some ({ name := filename,
                      len := u32_from_le_bytes (lenBytes.getD 0 0) (lenBytes.getD 1 0)
                        (lenBytes.getD 2 0) (lenBytes.getD 3 0),
                      data_offset := u32_from_le_bytes (offBytes.getD 0 0) (offBytes.getD 1 0)
                        (offBytes.getD 2 0) (offBytes.getD 3 0) } :: rest)

/-- `GBFSFilesystem::from_slice` from `src/lib.rs` (lines 100–180): index the
first 32 bytes of `data` (each out-of-bounds index is a panic), run
`GBFSHeader::from_slice` on them (an `Err` is returned to the caller), then
run the directory loop. -/
def GBFSFilesystem.fromSlice (data : List Nat) :
    Option (Except GBFSError GBFSFilesystem) :=
  match readBytes data 0 GBFS_HEADER_LENGTH with
  | none => none
  | some headerBytes =>
    match GBFSHeader.fromSlice headerBytes with
    | .error err => some (.error err)
    | .ok hdr =>
      match dirLoop data hdr.dir_off 0 hdr.dir_num_members with
      | none => none
      | some entries => some (.ok { data := data, hdr := hdr, dir := entries })

/-- The Rust slice `&data[start .. start + len]` when in bounds. -/
def listExtract (data : List Nat) (start len : Nat) : List Nat :=
  (data.drop start).take len

/-- `GBFSFilesystem::get_file_data_by_index` from `src/lib.rs` (lines
183–193): `self.dir[index]` (panic when `index` is out of range of the array,
`.expect` panic when the slot is `None` — both are `dir.get? index = none`
in the prefix representation), then `&self.data[off .. off + len]`, which
panics unless `off + len ≤ self.data.len()`. -/
def GBFSFilesystem.getFileDataByIndex (fs : GBFSFilesystem) (index : Nat) :
    Option (List Nat) :=
  match fs.dir.get? index with
  | none => none
  | some e =>
    if e.data_offset + e.len ≤ fs.data.length then
      some (listExtract fs.data e.data_offset e.len)
    else none

/-- The scan of `GBFSFilesystem::get_file_data_by_name` (`src/lib.rs` lines
200–210): iterate over the directory slots in order; at a filled slot, a
`name_is_equal` error is propagated (`?`), a match returns
`get_file_data_by_index(i)` (whose panic propagates), a mismatch continues;
at the first empty slot — i.e. past the filled prefix — and likewise when the
table is exhausted, return `NoSuchFile(name)` (the source returns that same
error both at a `None` slot and after the loop). -/
def lookupLoop (fs : GBFSFilesystem) (name : List Nat) :
    List GBFSFileEntry → Nat → Option (Except GBFSError (List Nat))
  | [], _ => some (.error (.NoSuchFile name))
  | e :: rest, i =>
    match e.nameIsEqual name with
    | .error err => some (.error err)
    | .ok true =>
      match fs.getFileDataByIndex i with
      | none => none
      | some d => some (.ok d)
    | .ok false => lookupLoop fs name rest (i + 1)

/-- `GBFSFilesystem::get_file_data_by_name` from `src/lib.rs` (lines 197–211). -/
def GBFSFilesystem.getFileDataByName (fs : GBFSFilesystem) (name : List Nat) :
    Option (Except GBFSError (List Nat)) :=
  lookupLoop fs name fs.dir 0

/-- Chunks of two bytes decoded little-endian, as `byte_slice_cast`'s
`as_slice_of::<u16>` reinterprets an even-length byte slice on the
little-endian GBA target. -/
def bytesToU16LE : List Nat → List Nat
  | b0 :: b1 :: rest => u16_from_le_bytes b0 b1 :: bytesToU16LE rest
  | _ => []

/-- Chunks of four bytes decoded little-endian (`as_slice_of::<u32>`). -/
def bytesToU32LE : List Nat → List Nat
  | b0 :: b1 :: b2 :: b3 :: rest => u32_from_le_bytes b0 b1 b2 b3 :: bytesToU32LE rest
  | _ => []

/-- `GBFSFilesystem::get_file_data_by_name_as_u16_slice` from `src/lib.rs`
(lines 215–229): if the length of the whole backing buffer (`self.data`, not
the file!) is odd, return `FileLengthNotMultipleOf`; otherwise look the file
up (propagating error and panic) and `as_slice_of::<u16>().unwrap()` — the
`unwrap` panics when the cast fails, which is the case whenever the file's
length is odd (alignment, the cast's other failure mode, is outside this
byte-level model and assumed satisfied). -/
def GBFSFilesystem.getFileDataByNameAsU16Slice (fs : GBFSFilesystem)
    (name : List Nat) : Option (Except GBFSError (List Nat)) :=
  if fs.data.length % 2 ≠ 0 then
    some (.error (.FileLengthNotMultipleOf 2 fs.data.length))
  else
    match fs.getFileDataByName name with
    | none => none
    | some (.error e) => some (.error e)
    | some (.ok d) =>
      if d.length % 2 = 0 then some (.ok (bytesToU16LE d)) else none

/-- `GBFSFilesystem::get_file_data_by_name_as_u32_slice` from `src/lib.rs`
(lines 233–247), same shape with 4 in place of 2. -/
def GBFSFilesystem.getFileDataByNameAsU32Slice (fs : GBFSFilesystem)
    (name : List Nat) : Option (Except GBFSError (List Nat)) :=
  if fs.data.length % 4 ≠ 0 then
    some (.error (.FileLengthNotMultipleOf 4 fs.data.length))
  else
    match fs.getFileDataByName name with
    | none => none
    | some (.error e) => some (.error e)
    | some (.ok d) =>
      if d.length % 4 = 0 then some (.ok (bytesToU32LE d)) else none

/-- `GBFSFilesystemIterator::next` from `src/lib.rs` (lines 267–278), with
the iterator's mutable `next_file_index` passed and returned explicitly:
when `next_file_index < hdr.dir_num_members`, yield
`get_file_data_by_index(next_file_index)` (whose panic propagates) and
advance; otherwise yield `None` (iteration finished). -/
def GBFSFilesystemIterator.next (fs : GBFSFilesystem) (next_file_index : Nat) :
    Option (Option (List Nat) × Nat) :=
  if next_file_index < fs.hdr.dir_num_members then
    match fs.getFileDataByIndex next_file_index with
    | none => none
    | some d => some (some d, next_file_index + 1)
  else some (none, next_file_index)

/-- `Filename::as_string` from `src/file.rs` (lines 15–27): strip all NUL
bytes from the 24-byte backing and `try_from_utf8(...).unwrap()` — the
`unwrap` panics (`none`) on invalid UTF-8. -/
def Filename.asString (backing : List Nat) : Option (List Nat) :=
  let noNulls := stripNulls backing
  if validUtf8 noNulls then some noNulls else none

/-- Big-endian 2-byte chunks, as `File::to_u16_vec` produces with
`u16::from_be_bytes` over `chunks(2)` of an even-length slice. -/
def bytesToU16BE : List Nat → List Nat
  | b0 :: b1 :: rest => u16_from_be_bytes b0 b1 :: bytesToU16BE rest
  | _ => []

/-- Big-endian 4-byte chunks (`File::to_u32_vec`). -/
def bytesToU32BE : List Nat → List Nat
  | b0 :: b1 :: b2 :: b3 :: rest => u32_from_be_bytes b0 b1 b2 b3 :: bytesToU32BE rest
  | _ => []

/-- `File::to_u16_vec` from `src/file.rs` (lines 41–52): explicit `panic!`
(`none`) when the data length is odd, else the big-endian `u16` chunks. -/
def File.toU16Vec (data : List Nat) : Option (List Nat) :=
  if data.length % 2 ≠ 0 then none else some (bytesToU16BE data)

/-- `File::to_u32_vec` from `src/file.rs` (lines 56–67): explicit `panic!`
(`none`) when the data length is not a multiple of 4, else the big-endian
`u32` chunks. -/
def File.toU32Vec (data : List Nat) : Option (List Nat) :=
  if data.length % 4 ≠ 0 then none else some (bytesToU32BE data)

/-! ## Concrete archives used as inputs to the theorems below -/

/-- Little-endian two-byte encoding of `n < 65536`. -/
def le2 (n : Nat) : List Nat := [n % 256, n / 256 % 256]

/-- Little-endian four-byte encoding of `n < 2^32`. -/
def le4 (n : Nat) : List Nat := [n % 256, n / 256 % 256, n / 65536 % 256, n / 16777216 % 256]

/-- A syntactically valid 32-byte GBFS header with the given field values. -/
def mkHeader (total dirOff count : Nat) : List Nat :=
  MAGIC ++ le4 total ++ le2 dirOff ++ le2 count ++ List.replicate 8 0

/-- A 32-byte directory record: NUL-padded name, LE length, LE data offset. -/
def mkEntry (name : List Nat) (len off : Nat) : List Nat :=
  name ++ List.replicate (FILENAME_LEN - name.length) 0 ++ le4 len ++ le4 off

/-- The 24 raw name bytes of a file called `"a"`. -/
def exName97 : List Nat := 97 :: List.replicate 23 0

/-- 24 raw name bytes starting with `0xFF`: not valid UTF-8 after NUL-stripping. -/
def exBadName : List Nat := 255 :: List.replicate 23 0

/-- A buffer of 10 zero bytes — shorter than the 32-byte header. -/
def exBufShort : List Nat := List.replicate 10 0

/-- A 64-byte archive with one entry `"a"` whose extent
(`data_offset = 100`, `len = 100`) lies past the end of the buffer. -/
def exBufOOBEntry : List Nat := mkHeader 64 32 1 ++ mkEntry [97] 100 100

/-- The filesystem `from_slice` builds from `exBufOOBEntry`. -/
def exFSOOBEntry : GBFSFilesystem := ⟨exBufOOBEntry, ⟨64, 32, 1⟩, [⟨exName97, 100, 100⟩]⟩

/-- A 32-byte archive whose header declares 2049 directory entries
(more than `NUM_FS_ENTRIES = 2048`) but contains none of them. -/
def exBufTooMany : List Nat := mkHeader 32 32 2049

/-- A 98-byte archive with two entries both named `"a"`, pointing at the
distinct payload bytes `88` (offset 96) and `89` (offset 97). -/
def exBufDupNames : List Nat :=
  mkHeader 98 32 2 ++ mkEntry [97] 1 96 ++ mkEntry [97] 1 97 ++ [88, 89]

/-- The filesystem built from `exBufDupNames`. -/
def exFSDupNames : GBFSFilesystem :=
  ⟨exBufDupNames, ⟨98, 32, 2⟩, [⟨exName97, 1, 96⟩, ⟨exName97, 1, 97⟩]⟩

/-- A well-formed 65-byte archive with the single entry `"a"` whose payload
is the byte `42` at offset 64. -/
def exBufSingle : List Nat := mkHeader 65 32 1 ++ mkEntry [97] 1 64 ++ [42]

/-- The filesystem built from `exBufSingle`. -/
def exFSSingle : GBFSFilesystem := ⟨exBufSingle, ⟨65, 32, 1⟩, [⟨exName97, 1, 64⟩]⟩

/-- A 97-byte archive whose first entry has the invalid-UTF-8 name byte
`0xFF` and whose second entry is `"a"` with payload byte `90` at offset 96. -/
def exBufBadName2 : List Nat :=
  mkHeader 97 32 2 ++ mkEntry [255] 0 0 ++ mkEntry [97] 1 96 ++ [90]

/-- The filesystem built from `exBufBadName2`. -/
def exFSBadName2 : GBFSFilesystem :=
  ⟨exBufBadName2, ⟨97, 32, 2⟩, [⟨exBadName, 0, 0⟩, ⟨exName97, 1, 96⟩]⟩

/-- A 64-byte archive whose only entry has the invalid-UTF-8 name byte `0xFF`. -/
def exBufBadName1 : List Nat := mkHeader 64 32 1 ++ mkEntry [255] 0 0

/-- The filesystem built from `exBufBadName1`. -/
def exFSBadName1 : GBFSFilesystem := ⟨exBufBadName1, ⟨64, 32, 1⟩, [⟨exBadName, 0, 0⟩]⟩

/-- A 66-byte (even-length) archive whose single file `"a"` has the odd
length 1: payload byte `7` at offset 64, plus one padding byte. -/
def exBufOddFile : List Nat := mkHeader 66 32 1 ++ mkEntry [97] 1 64 ++ [7, 8]

/-- The filesystem built from `exBufOddFile`. -/
def exFSOddFile : GBFSFilesystem := ⟨exBufOddFile, ⟨66, 32, 1⟩, [⟨exName97, 1, 64⟩]⟩

/-- A 32-byte archive declaring zero directory entries. -/
def exBufEmpty : List Nat := mkHeader 32 32 0

/-- The filesystem built from `exBufEmpty`. -/
def exFSEmpty : GBFSFilesystem := ⟨exBufEmpty, ⟨32, 32, 0⟩, []⟩

/-- 32 zero bytes: long enough for the header, but with the wrong magic. -/
def exBufBadMagic : List Nat := List.replicate 32 0

/-- A raw 24-byte name field with an interior NUL: `'a', NUL, 'b'`, padding. -/
def exRawInteriorNul : List Nat := [97, 0, 98] ++ List.replicate 21 0

/-! ## Claim C1 — bounds safety of `from_slice` -/

/-- C1: the claim states that `GBFSFilesystem::from_slice` never panics and
returns a `Truncated`/`HeaderInvalid` error on any truncated buffer.  The
code instead indexes `data[0] … data[31]` unconditionally, so on the 10-byte
buffer `exBufShort` it panics with an out-of-bounds index (`none` in the
model) instead of returning an error — the behaviour the repository's own
fuzz target (`fuzz/fuzz_targets/gbfs.rs`, which feeds `from_slice` arbitrary
slices) is designed to reject. -/
theorem c1_from_slice_short_buffer_panics :
    GBFSFilesystem.fromSlice exBufShort = none := by rfl

/-! ## Claim C3 — entry-count capacity bound -/

/-- C3: the claim states that an archive declaring `entry_count > 2048` is
rejected with `TooManyEntries(2048, count)`.  `from_slice` performs no such
check: on `exBufTooMany` (a valid 32-byte header declaring 2049 entries) it
enters the directory loop and panics — here on the out-of-bounds read of the
first directory record, and on any buffer long enough to hold the records on
the `dir_entries[2048]` array write — never producing the `TooManyEntries`
value that `src/error.rs` documents as "Returned when an archive contains
too many entries". -/
theorem c3_from_slice_too_many_entries_panics :
    GBFSFilesystem.fromSlice exBufTooMany = none := by rfl

/-! ## Claim C4 — the header decoder as a pure function of 32 bytes -/

/-- Modelled from the spec's words (claim C4): the header decoder fails
exactly when some byte of positions `0..16` differs from the magic string or
some reserved byte of positions `24..32` is non-zero, and otherwise returns
the little-endian `total_len` (bytes 16–19), `dir_offset` (bytes 20–21) and
`entry_count` (bytes 22–23). -/
def specHeaderDecode (data : List Nat) : Except GBFSError GBFSHeader :=
  if (∃ i ∈ List.range 16, data.getD i 0 ≠ MAGIC.getD i 0) ∨
     (∃ i ∈ List.range 8, data.getD (24 + i) 0 ≠ 0) then
    .error .HeaderInvalid
  else
    .ok { total_len := u32_from_le_bytes (data.getD 16 0) (data.getD 17 0)
            (data.getD 18 0) (data.getD 19 0),
          dir_off := u16_from_le_bytes (data.getD 20 0) (data.getD 21 0),
          dir_num_members := u16_from_le_bytes (data.getD 22 0) (data.getD 23 0) }

/-- C4: for every 32-byte input, `GBFSHeader::from_slice` returns an error
(always `HeaderInvalid`) exactly when some byte in positions 0–15 differs
from the magic string or some reserved byte in positions 24–31 is non-zero,
and otherwise returns the header whose fields are the little-endian decodings
of bytes 16–19, 20–21 and 22–23 — i.e. it agrees with `specHeaderDecode` as
a pure function of the 32 input bytes. -/
theorem c4_header_decoder (data : List Nat) (h : data.length = 32) :
    GBFSHeader.fromSlice data = specHeaderDecode data := by
  simp only [GBFSHeader.fromSlice, specHeaderDecode, List.any_eq_true, List.mem_range,
    bne_iff_ne]
  split_ifs <;> first | rfl | aesop

/-- Witness for C4 at the concrete 32-byte header `mkHeader 5 6 7`. -/
theorem c4_header_decoder_witness :
    (mkHeader 5 6 7).length = 32 ∧
      GBFSHeader.fromSlice (mkHeader 5 6 7) = specHeaderDecode (mkHeader 5 6 7) :=
  ⟨by decide, c4_header_decoder (mkHeader 5 6 7) (by decide)⟩

/-! ## Claim C2 — entries whose extent exceeds the buffer -/

/-- If the first entry matching the query (all earlier entries comparing
`Ok(false)`) sits at index `i` and reading its payload panics, the whole
name scan panics: helper for the C2 and C5/C6 results. -/
lemma lookupLoop_none_of_first_match (fs : GBFSFilesystem) (q : List Nat) :
    ∀ (l : List GBFSFileEntry) (base i : Nat) (e : GBFSFileEntry),
    l.get? i = some e → e.nameIsEqual q = .ok true →
    (∀ j ej, j < i → l.get? j = some ej → ej.nameIsEqual q = .ok false) →
    fs.getFileDataByIndex (base + i) = none →
    lookupLoop fs q l base = none := by
  intro l
  induction l with
  | nil => intro base i e hi; simp at hi
  | cons a rest ih =>
    intro base i e hi hm hb hnone
    cases i with
    | zero =>
      simp at hi
      subst hi
      simp only [Nat.add_zero] at hnone
      simp [lookupLoop, hm, hnone]
    | succ i' =>
      have h0 : a.nameIsEqual q = .ok false := hb 0 a (Nat.succ_pos i') (by simp)
      simp only [List.get?_cons_succ] at hi
      have hb' : ∀ j ej, j < i' → rest.get? j = some ej → ej.nameIsEqual q = .ok false := by
        intro j ej hj hgj
        exact hb (j + 1) ej (Nat.succ_lt_succ hj) (by simpa using hgj)
      have hnone' : fs.getFileDataByIndex (base + 1 + i') = none := by
        have harith : base + 1 + i' = base + (i' + 1) := by omega
        rw [harith]; exact hnone
      simp [lookupLoop, h0]
      exact ih (base + 1) i' e hi hm hb' hnone'

/-- C2 counterexample: `exBufOOBEntry` constructs successfully even though its
single entry `"a"` has `data_offset + len = 200 > 64 = buffer length`; the
lookups that would return that entry's payload then evaluate to `none`
(a Rust slice-index panic) rather than `some (.error _)` — the claim's
"fails with an error rather than panicking" is false on this input. -/
theorem c2_oob_entry_counterexample :
    GBFSFilesystem.fromSlice exBufOOBEntry = some (.ok exFSOOBEntry) ∧
    exFSOOBEntry.getFileDataByName [97] = none ∧
    exFSOOBEntry.getFileDataByIndex 0 = none := ⟨by rfl, by rfl, by rfl⟩

/-- C2 (amended): for every constructed filesystem and every directory entry
whose `data_offset + len` exceeds the backing buffer's length, a lookup that
would return that entry's payload — by its index, or by a name that first
matches at that entry — panics (Rust slice-index panic, `none`) rather than
returning data or reading out of the buffer's bounds; no error value is
returned. -/
theorem c2_oob_entry_lookup_panics (fs : GBFSFilesystem) (i : Nat) (e : GBFSFileEntry)
    (q : List Nat)
    (hget : fs.dir.get? i = some e)
    (hoob : fs.data.length < e.data_offset + e.len)
    (hmatch : e.nameIsEqual q = .ok true)
    (hbefore : ∀ j ej, j < i → fs.dir.get? j = some ej → ej.nameIsEqual q = .ok false) :
    fs.getFileDataByIndex i = none ∧ fs.getFileDataByName q = none := by
  have hidx : fs.getFileDataByIndex i = none := by
    simp only [GBFSFilesystem.getFileDataByIndex, hget]
    rw [if_neg (by omega)]
  refine ⟨hidx, ?_⟩
  unfold GBFSFilesystem.getFileDataByName
  exact lookupLoop_none_of_first_match fs q fs.dir 0 i e hget hmatch hbefore
    (by simpa using hidx)

/-- Witness for the amended C2 at `exFSOOBEntry`, entry 0, query `"a"`. -/
theorem c2_oob_entry_lookup_panics_witness :
    exFSOOBEntry.dir.get? 0 = some ⟨exName97, 100, 100⟩ ∧
    exFSOOBEntry.data.length < 100 + 100 ∧
    (⟨exName97, 100, 100⟩ : GBFSFileEntry).nameIsEqual [97] = .ok true ∧
    (exFSOOBEntry.getFileDataByIndex 0 = none ∧
      exFSOOBEntry.getFileDataByName [97] = none) :=
  ⟨by rfl, by decide, by rfl,
    c2_oob_entry_lookup_panics exFSOOBEntry 0 ⟨exName97, 100, 100⟩ [97] (by rfl) (by decide)
      (by rfl) (fun j ej hj _ => absurd hj (Nat.not_lt_zero j))⟩

/-! ## Shared facts about construction and the name scan -/

/-- Spec-side description of the scan: the index of the first directory entry
whose NUL-stripped name equals the query. -/
def firstMatchIdx (q : List Nat) : List GBFSFileEntry → Option Nat
  | [] => none
  | e :: rest =>
    if stripNulls e.name = q then some 0 else (firstMatchIdx q rest).map (· + 1)

/-- When every entry name in the scanned list is valid UTF-8, the scan is
exactly: payload read of the first matching entry, else `NoSuchFile`. -/
lemma lookupLoop_eq_firstMatch (fs : GBFSFilesystem) (q : List Nat) :
    ∀ (l : List GBFSFileEntry) (base : Nat),
    (∀ e ∈ l, validUtf8 (stripNulls e.name) = true) →
    lookupLoop fs q l base =
      match firstMatchIdx q l with
      | some j =>
        match fs.getFileDataByIndex (base + j) with
        | none => none
        | some d => some (.ok d)
      | none => some (.error (.NoSuchFile q)) := by
  intro l
  induction l with
  | nil => intro base hv; simp [lookupLoop, firstMatchIdx]
  | cons a rest ih =>
    intro base hv
    have hva : validUtf8 (stripNulls a.name) = true := hv a (by simp)
    by_cases hq : stripNulls a.name = q
    · subst hq
      have hme : a.nameIsEqual (stripNulls a.name) = .ok true := by
        simp [GBFSFileEntry.nameIsEqual, hva]
      simp [lookupLoop, hme, firstMatchIdx]
    · have hme : a.nameIsEqual q = .ok false := by
        simp [GBFSFileEntry.nameIsEqual, hva]
        exact fun h => hq h.symm
      have hrec := ih (base + 1) (fun e he => hv e (by simp [he]))
      simp only [lookupLoop, hme, firstMatchIdx, if_neg hq]
      rw [hrec]
      cases hfm : firstMatchIdx q rest with
      | none => simp
      | some j =>
        simp only [Option.map_some']
        have harith : base + 1 + j = base + (j + 1) := by omega
        rw [harith]

/-- The directory loop, when it completes without panicking, yields exactly
as many entries as it was asked for. -/
lemma dirLoop_length (data : List Nat) (off : Nat) :
    ∀ (n i : Nat) (l : List GBFSFileEntry), dirLoop data off i n = some l → l.length = n := by
  intro n
  induction n with
  | zero =>
    intro i l h
    simp [dirLoop] at h
    simp [← h]
  | succ n ih =>
    intro i l h
    simp only [dirLoop] at h
    split at h
    · exact absurd h (by simp)
    · split at h
      · exact absurd h (by simp)
      · split at h
        · exact absurd h (by simp)
        · split at h
          · exact absurd h (by simp)
          · split at h
            · exact absurd h (by simp)
            · rename_i rest hrest
              simp only [Option.some.injEq] at h
              rw [← h]
              simp [ih (i + 1) rest hrest]

/-- A successfully constructed filesystem stores the input buffer unchanged
and holds exactly `dir_num_members` directory entries. -/
lemma fromSlice_ok (buf : List Nat) (fs : GBFSFilesystem)
    (h : GBFSFilesystem.fromSlice buf = some (.ok fs)) :
    fs.data = buf ∧ fs.dir.length = fs.hdr.dir_num_members := by
  unfold GBFSFilesystem.fromSlice at h
  split at h
  · exact absurd h (by simp)
  · split at h
    · exact absurd h (by simp)
    · split at h
      · exact absurd h (by simp)
      · simp only [Option.some.injEq, Except.ok.injEq] at h
        rw [← h]
        exact ⟨rfl, dirLoop_length buf _ _ 0 _ (by assumption)⟩

/-- The index of the first match really is `i` when entry `i` matches and no
earlier entry does. -/
lemma firstMatchIdx_of_first (q : List Nat) :
    ∀ (l : List GBFSFileEntry) (i : Nat) (e : GBFSFileEntry),
    l.get? i = some e → stripNulls e.name = q →
    (∀ j ej, j < i → l.get? j = some ej → stripNulls ej.name ≠ q) →
    firstMatchIdx q l = some i := by
  intro l
  induction l with
  | nil => intro i e hi; simp at hi
  | cons a rest ih =>
    intro i e hi he hb
    cases i with
    | zero =>
      simp at hi
      subst hi
      simp [firstMatchIdx, he]
    | succ i2 =>
      have h0 : stripNulls a.name ≠ q := hb 0 a (Nat.succ_pos i2) (by simp)
      simp only [List.get?_cons_succ] at hi
      have hb2 : ∀ j ej, j < i2 → rest.get? j = some ej → stripNulls ej.name ≠ q :=
        fun j ej hj hg => hb (j + 1) ej (Nat.succ_lt_succ hj) (by simpa using hg)
      simp [firstMatchIdx, h0, ih i2 e hi he hb2]

/-! ## Claim C6 — name lookup: scan order, exact match, `NoSuchFile` -/

/-- C6 counterexample: on `exBufBadName2` construction succeeds; entry 1
(`"a"`, payload `[90]`, readable by index) matches the query `"a"`, but the
scan hits entry 0 — whose NUL-stripped name `[0xFF]` is not valid UTF-8 —
first and returns `InvalidFilenameError` instead of entry 1's payload (and
instead of `NoSuchFile`): the claim's description of lookup is false on this
constructed filesystem. -/
theorem c6_lookup_counterexample :
    GBFSFilesystem.fromSlice exBufBadName2 = some (.ok exFSBadName2) ∧
    (⟨exName97, 1, 96⟩ : GBFSFileEntry).nameIsEqual [97] = .ok true ∧
    exFSBadName2.getFileDataByIndex 1 = some [90] ∧
    exFSBadName2.getFileDataByName [97] = some (.error .InvalidFilenameError) :=
  ⟨by rfl, by rfl, by rfl, by rfl⟩

/-- C6 (amended): for a filesystem all of whose entry names are valid UTF-8
after NUL-stripping, lookup by name scans the directory in original order
and returns the payload read of the first entry whose stripped name equals
the query byte-for-byte (exact, case-sensitive, no normalization; the read
panics if that entry's extent exceeds the buffer); if no entry matches it
returns `NoSuchFile` carrying the queried name.  (When some entry scanned
before the first match has an invalid-UTF-8 name, the lookup instead fails
with `InvalidFilenameError` — names are validated lazily, during lookup.) -/
theorem c6_lookup_scan (fs : GBFSFilesystem) (q : List Nat)
    (hvalid : ∀ e ∈ fs.dir, validUtf8 (stripNulls e.name) = true) :
    fs.getFileDataByName q =
      match firstMatchIdx q fs.dir with
      | some j =>
        match fs.getFileDataByIndex j with
        | none => none
        | some d => some (.ok d)
      | none => some (.error (.NoSuchFile q)) := by
  unfold GBFSFilesystem.getFileDataByName
  have h := lookupLoop_eq_firstMatch fs q fs.dir 0 hvalid
  simpa using h

/-- Witness for the amended C6 at `exFSSingle`, query `"a"`. -/
theorem c6_lookup_scan_witness :
    (∀ e ∈ exFSSingle.dir, validUtf8 (stripNulls e.name) = true) ∧
    exFSSingle.getFileDataByName [97] =
      match firstMatchIdx [97] exFSSingle.dir with
      | some j =>
        match exFSSingle.getFileDataByIndex j with
        | none => none
        | some d => some (.ok d)
      | none => some (.error (.NoSuchFile [97])) :=
  ⟨by decide, c6_lookup_scan exFSSingle [97] (by decide)⟩

/-! ## Claim C5 — round-trip of directory entries through lookup -/

/-- C5 counterexample: `exBufDupNames` is a well-formed archive (valid names,
in-bounds extents) with two entries both decoding to the name `"a"`.  For
the second entry `e` (index 1, payload `buffer[97..98] = [89]`), looking up
`e`'s decoded name returns the FIRST entry's payload `[88]`, not
`buffer[e.data_offset .. e.data_offset + e.length]` — the round-trip claim
is false for `e`. -/
theorem c5_roundtrip_counterexample :
    GBFSFilesystem.fromSlice exBufDupNames = some (.ok exFSDupNames) ∧
    exFSDupNames.dir.get? 1 = some ⟨exName97, 1, 97⟩ ∧
    (⟨exName97, 1, 97⟩ : GBFSFileEntry).nameIsEqual [97] = .ok true ∧
    listExtract exBufDupNames 97 1 = [89] ∧
    exFSDupNames.getFileDataByName [97] = some (.ok [88]) ∧
    ¬ exFSDupNames.getFileDataByName [97] =
        some (.ok (listExtract exBufDupNames 97 1)) :=
  ⟨by rfl, by rfl, by rfl, by rfl, by rfl, by decide⟩

/-- C5 (amended): for every well-formed archive (construction succeeds, all
entry names valid UTF-8 after NUL-stripping, all entry extents within the
buffer) and every entry `e` that is the first entry in directory order with
its decoded name, looking up `e`'s decoded name returns exactly
`buffer[e.data_offset .. e.data_offset + e.len]`. -/
theorem c5_roundtrip_first_match (buf : List Nat) (fs : GBFSFilesystem) (i : Nat)
    (e : GBFSFileEntry)
    (hopen : GBFSFilesystem.fromSlice buf = some (.ok fs))
    (hnames : ∀ e2 ∈ fs.dir, validUtf8 (stripNulls e2.name) = true)
    (hbounds : ∀ e2 ∈ fs.dir, e2.data_offset + e2.len ≤ buf.length)
    (hget : fs.dir.get? i = some e)
    (hfirst : ∀ j ej, j < i → fs.dir.get? j = some ej →
      stripNulls ej.name ≠ stripNulls e.name) :
    fs.getFileDataByName (stripNulls e.name) =
      some (.ok (listExtract buf e.data_offset e.len)) := by
  have hdata : fs.data = buf := (fromSlice_ok buf fs hopen).1
  have hfm : firstMatchIdx (stripNulls e.name) fs.dir = some i :=
    firstMatchIdx_of_first _ fs.dir i e hget rfl hfirst
  have hmem : e ∈ fs.dir := List.get?_mem hget
  have hble : e.data_offset + e.len ≤ fs.data.length := by
    rw [hdata]; exact hbounds e hmem
  have hidx : fs.getFileDataByIndex i = some (listExtract buf e.data_offset e.len) := by
    simp only [GBFSFilesystem.getFileDataByIndex, hget]
    rw [if_pos hble, hdata]
  unfold GBFSFilesystem.getFileDataByName
  rw [lookupLoop_eq_firstMatch fs _ fs.dir 0 hnames, hfm]
  simp [Nat.zero_add, hidx]

/-- Witness for the amended C5 at the single-entry archive `exBufSingle`. -/
theorem c5_roundtrip_first_match_witness :
    GBFSFilesystem.fromSlice exBufSingle = some (.ok exFSSingle) ∧
    (∀ e2 ∈ exFSSingle.dir, validUtf8 (stripNulls e2.name) = true) ∧
    (∀ e2 ∈ exFSSingle.dir, e2.data_offset + e2.len ≤ exBufSingle.length) ∧
    exFSSingle.dir.get? 0 = some ⟨exName97, 1, 64⟩ ∧
    exFSSingle.getFileDataByName (stripNulls exName97) =
      some (.ok (listExtract exBufSingle 64 1)) :=
  ⟨by rfl, by decide, by decide, by rfl,
    c5_roundtrip_first_match exBufSingle exFSSingle 0 ⟨exName97, 1, 64⟩ (by rfl) (by decide)
      (by decide) (by rfl) (fun j ej hj _ => absurd hj (Nat.not_lt_zero j))⟩

/-! ## Claim C7 — decoding of the stored 24-byte name field -/

/-- Modelled from the claim's words (C7): the decoded name is the prefix of
the raw bytes up to (excluding) the first NUL byte, or all bytes if none. -/
def specNameUpToNul (raw : List Nat) : List Nat := raw.takeWhile (fun b => b != 0)

/-- C7 counterexample: for the raw name field `'a', NUL, 'b', …` the code's
comparison (`name_is_equal`) accepts `"ab"` and its decoder (`as_string`)
returns `"ab"`, while the claim's up-to-first-NUL decode is `"a"` — which
the code's comparison rejects.  Bytes after the first NUL do contribute. -/
theorem c7_name_decode_counterexample :
    (⟨exRawInteriorNul, 0, 0⟩ : GBFSFileEntry).nameIsEqual [97, 98] = .ok true ∧
    Filename.asString exRawInteriorNul = some [97, 98] ∧
    specNameUpToNul exRawInteriorNul = [97] ∧
    (⟨exRawInteriorNul, 0, 0⟩ : GBFSFileEntry).nameIsEqual
      (specNameUpToNul exRawInteriorNul) = .ok false :=
  ⟨by rfl, by rfl, by rfl, by rfl⟩

/-- C7 (amended): the stored 24-byte name field is decoded by removing ALL
NUL bytes (interior ones included) and interpreting the remainder as UTF-8;
the comparison used by lookups (`name_is_equal`, `src/lib.rs`) and the name
returned to callers (`Filename::as_string`, `src/file.rs`) agree on this
decode: the comparison accepts exactly the string `as_string` would return. -/
theorem c7_name_decode_strips_all_nulls (e : GBFSFileEntry) (q : List Nat) :
    e.nameIsEqual q = .ok true ↔ Filename.asString e.name = some q := by
  simp only [GBFSFileEntry.nameIsEqual, Filename.asString]
  split_ifs with hv
  · simp [eq_comm]
  · simp

/-! ## Claim C8 — reinterpreting payloads as u16/u32 sequences -/

/-- A 65-byte (odd-length) archive whose single file `"a"` has the even
length 0 (`data_offset = 64`), plus one trailing byte. -/
def exBufOddBuf : List Nat := mkHeader 65 32 1 ++ mkEntry [97] 0 64 ++ [5]

/-- The filesystem built from `exBufOddBuf`. -/
def exFSOddBuf : GBFSFilesystem := ⟨exBufOddBuf, ⟨65, 32, 1⟩, [⟨exName97, 0, 64⟩]⟩

/-- C8: the claim states that the u16/u32 reinterpretations fail with a
length-mismatch error, never panic, and check the file's own payload length.
The code does neither: `get_file_data_by_name_as_u16_slice` checks the WHOLE
buffer's length and then `unwrap`s the cast, so on `exBufOddFile` (66-byte
buffer, file `"a"` of odd length 1) it panics (`none`); conversely on
`exBufOddBuf` (65-byte buffer, file `"a"` of even length 0) it reports
`FileLengthNotMultipleOf` with the buffer's length 65 even though the
payload length is fine.  `File::to_u16_vec` / `to_u32_vec` check the right
length but `panic!` (`none`) instead of returning an error. -/
theorem c8_reinterpretation_panics :
    GBFSFilesystem.fromSlice exBufOddFile = some (.ok exFSOddFile) ∧
    exFSOddFile.getFileDataByName [97] = some (.ok [7]) ∧
    exFSOddFile.data.length % 2 = 0 ∧
    exFSOddFile.getFileDataByNameAsU16Slice [97] = none ∧
    GBFSFilesystem.fromSlice exBufOddBuf = some (.ok exFSOddBuf) ∧
    exFSOddBuf.getFileDataByName [97] = some (.ok []) ∧
    exFSOddBuf.getFileDataByNameAsU16Slice [97] =
      some (.error (.FileLengthNotMultipleOf 2 65)) ∧
    File.toU16Vec [7] = none ∧
    File.toU32Vec [7, 8, 9] = none :=
  ⟨by rfl, by rfl, by rfl, by rfl, by rfl, by rfl, by rfl, by rfl, by rfl⟩

/-! ## Claim C9 — eager versus lazy validation of entry names -/

/-- The header decoder's only error value is `HeaderInvalid`. -/
lemma header_err (hb : List Nat) (e : GBFSError)
    (h : GBFSHeader.fromSlice hb = .error e) : e = .HeaderInvalid := by
  unfold GBFSHeader.fromSlice at h
  split_ifs at h <;> simp_all

/-- C9 counterexample: on `exBufBadName1` — whose single entry's name byte
`0xFF` is not valid UTF-8 — construction succeeds, and a later lookup fails
with the name-decoding error `InvalidFilenameError`: directory decoding is
not eager about name validation, contradicting the claim. -/
theorem c9_lazy_decode_counterexample :
    GBFSFilesystem.fromSlice exBufBadName1 = some (.ok exFSBadName1) ∧
    exFSBadName1.getFileDataByName [97] = some (.error .InvalidFilenameError) :=
  ⟨by rfl, by rfl⟩

/-- C9 (amended): construction eagerly reads every entry's fields but
performs NO UTF-8 validation of names — the only error `from_slice` can
return is `HeaderInvalid` (name decoding happens lazily at lookup, where it
can fail with `InvalidFilenameError` even though construction succeeded). -/
theorem c9_construction_never_name_error (buf : List Nat) (err : GBFSError)
    (h : GBFSFilesystem.fromSlice buf = some (.error err)) :
    err = .HeaderInvalid := by
  unfold GBFSFilesystem.fromSlice at h
  split at h
  · exact absurd h (by simp)
  · split at h
    · simp only [Option.some.injEq, Except.error.injEq] at h
      subst h
      exact header_err _ _ (by assumption)
    · split at h
      · exact absurd h (by simp)
      · exact absurd h (by simp)

/-- Witness for the amended C9 at the wrong-magic buffer `exBufBadMagic`. -/
theorem c9_construction_never_name_error_witness :
    GBFSFilesystem.fromSlice exBufBadMagic = some (.error .HeaderInvalid) ∧
    GBFSError.HeaderInvalid = GBFSError.HeaderInvalid :=
  ⟨by rfl, c9_construction_never_name_error exBufBadMagic GBFSError.HeaderInvalid (by rfl)⟩

/-! ## Claim C10 — archives declaring zero entries -/

/-- C10: on a filesystem built from a buffer whose header declares
`entry_count = 0`, every lookup by name returns `NoSuchFile` carrying the
queried name (the scan meets the empty slot at index 0 at once), and the
iterator's first `next` call yields `None`. -/
theorem c10_empty_directory (buf : List Nat) (fs : GBFSFilesystem)
    (hopen : GBFSFilesystem.fromSlice buf = some (.ok fs))
    (hzero : fs.hdr.dir_num_members = 0) :
    (∀ q, fs.getFileDataByName q = some (.error (.NoSuchFile q))) ∧
    GBFSFilesystemIterator.next fs 0 = some (none, 0) := by
  have hdir : fs.dir = [] := by
    have hl := (fromSlice_ok buf fs hopen).2
    rw [hzero] at hl
    exact List.length_eq_zero.mp hl
  constructor
  · intro q
    unfold GBFSFilesystem.getFileDataByName
    rw [hdir]
    rfl
  · simp [GBFSFilesystemIterator.next, hzero]

/-- Witness for C10 at the zero-entry archive `exBufEmpty`. -/
theorem c10_empty_directory_witness :
    GBFSFilesystem.fromSlice exBufEmpty = some (.ok exFSEmpty) ∧
    exFSEmpty.hdr.dir_num_members = 0 ∧
    ((∀ q, exFSEmpty.getFileDataByName q = some (.error (.NoSuchFile q))) ∧
      GBFSFilesystemIterator.next exFSEmpty 0 = some (none, 0)) :=
  ⟨by rfl, by rfl, c10_empty_directory exBufEmpty exFSEmpty (by rfl) (by rfl)⟩
